import Mathlib

/-! Documentation site of `ai-infrastructure-on-azure`.

A shallow embedding of the three JavaScript artifacts of the website:

* `website/sidebars.js`: the sidebar tree (`sidebars`);
* `website/docusaurus.config.js`: the site configuration (`config`);
* `website/src/components/HomepageFeatures/index.js`: the feature list and
  the two React components `Feature` and `HomepageFeatures`.

Object literals become structures, arrays become lists, optional object keys
become `Option` fields.  The one ambient read of the configuration,
`new Date().getFullYear()`, is an explicit argument of `config`.
-/

namespace AzureAIInfra

/-! ## `sidebars.js` -/

/-- An entry of a sidebar: a bare string is a document id, an object with
`type: 'category'` carries a label and its nested items. -/
inductive SidebarItem where
  | doc (id : String)
  | category (label : String) (items : List SidebarItem)

/-- The shape of the exported `sidebars` object. -/
structure Sidebars where
  tutorialSidebar : List SidebarItem

/-- The `sidebars` constant of `sidebars.js`, in declaration order. -/
def sidebars : Sidebars where
  tutorialSidebar := [
    .doc "intro",
    .category "Infrastructure" [
      .doc "infrastructure/cyclecloud-slurm",
      .doc "infrastructure/aks-cluster"],
    .category "Validations" [
      .category "AKS" [
        .doc "validations/aks/storage-performance",
        .doc "validations/aks/nccl-testing",
        .doc "validations/aks/node-health-checks"],
      .category "Slurm" [
        .doc "validations/slurm/nccl-testing",
        .doc "validations/slurm/node-health-checks",
        .doc "validations/slurm/thermal-testing"]],
    .category "Examples" [
      .category "AI Training" [
        .doc "examples/ai-training/megatron-gpt3-slurm",
        .doc "examples/ai-training/megatron-gpt3-aks",
        .doc "examples/ai-training/llm-foundry-slurm",
        .doc "examples/ai-training/llm-foundry-aks"],
      .category "Shared Storage" [
        .doc "examples/shared-storage/shared-storage-aks"]],
    .category "Guidance" [
      .doc "guidance/node-labeler",
      .doc "guidance/torset-labeler",
      .doc "guidance/squashed-images"]]

mutual
/-- Leaf document ids below one sidebar entry, depth first. -/
def SidebarItem.docIds : SidebarItem → List String
  | .doc id => [id]
  | .category _ items => flattenSidebar items
/-- Leaf document ids of a sequence of sidebar entries, depth first, left to
right, through every nested category. -/
def flattenSidebar : List SidebarItem → List String
  | [] => []
  | item :: rest => item.docIds ++ flattenSidebar rest
end

/-- One place where a document id sits in the tree: the labels of the
enclosing categories from the outermost inwards, and the index among the
items of the innermost one (of the sidebar itself when `path` is empty). -/
structure Location where
  path : List String
  index : Nat
deriving DecidableEq

mutual
/-- Occurrences of `target` at or below one entry that sits at `index`
under the categories `path`. -/
def SidebarItem.locate (target : String) (path : List String) (index : Nat) :
    SidebarItem → List Location
  | .doc id => if id = target then [⟨path, index⟩] else []
  | .category label items => locateFrom target (path ++ [label]) 0 items
/-- Occurrences of `target` in a sequence of sibling entries whose first
element has index `index`. -/
def locateFrom (target : String) (path : List String) (index : Nat) :
    List SidebarItem → List Location
  | [] => []
  | item :: rest =>
      item.locate target path index ++ locateFrom target path (index + 1) rest
end

/-- Every occurrence of the document id `target` in a sidebar. -/
def locate (target : String) (items : List SidebarItem) : List Location :=
  locateFrom target [] 0 items

mutual
/-- Item lists of the categories labelled `label` at or below one entry. -/
def SidebarItem.categoriesLabelled (label : String) :
    SidebarItem → List (List SidebarItem)
  | .doc _ => []
  | .category l items =>
      (if l = label then [items] else []) ++ categoriesLabelledIn label items
/-- Item lists of the categories labelled `label` anywhere in a sequence of
entries, depth first. -/
def categoriesLabelledIn (label : String) :
    List SidebarItem → List (List SidebarItem)
  | [] => []
  | item :: rest =>
      item.categoriesLabelled label ++ categoriesLabelledIn label rest
end

/-- The document id of an entry that is a leaf. -/
def SidebarItem.docId? : SidebarItem → Option String
  | .doc id => some id
  | .category _ _ => none

/-- The top-level categories of a sidebar as (label, items), in order. -/
def topLevelCategories (items : List SidebarItem) :
    List (String × List SidebarItem) :=
  items.filterMap fun
    | .doc _ => none
    | .category label children => some (label, children)

/-- The first leaf document id of a sequence of entries, depth first. -/
def firstDocId (items : List SidebarItem) : Option String :=
  (flattenSidebar items).head?

/-! ## `docusaurus.config.js` -/

/-- The two themes the file takes from `prism-react-renderer`
(`themes.github`, `themes.dracula`); the theme objects themselves belong to
that package and are kept by name. -/
inductive PrismTheme where
  | github
  | dracula
deriving DecidableEq

/-- A call `require.resolve(request)`: the path it resolves to depends on
where the site is checked out, so the call is kept by its request. -/
structure ResolvedPath where
  request : String
deriving DecidableEq

/-- The `i18n` object. -/
structure I18n where
  defaultLocale : String
  locales : List String
deriving DecidableEq

/-- The `docs` options of the classic preset. -/
structure DocsOptions where
  sidebarPath : ResolvedPath
  editUrl : String
deriving DecidableEq

/-- The `theme` options of the classic preset. -/
structure ThemeOptions where
  customCss : ResolvedPath
deriving DecidableEq

/-- The options object of the classic preset. -/
structure PresetOptions where
  docs : DocsOptions
  theme : ThemeOptions
deriving DecidableEq

/-- One entry `[name, options]` of `presets`. -/
structure Preset where
  name : String
  options : PresetOptions
deriving DecidableEq

/-- The navbar `logo` object. -/
structure Logo where
  alt : String
  src : String
deriving DecidableEq

/-- An entry of `navbar.items`; each entry of the file has one of `to`
(internal path) and `href` (external URL). -/
structure NavbarItem where
  «to» : Option String := none
  href : Option String := none
  label : String
  position : String
deriving DecidableEq

/-- The `navbar` object. -/
structure Navbar where
  title : String
  logo : Logo
  items : List NavbarItem
deriving DecidableEq

/-- An entry of the `items` of a footer group. -/
structure FooterItem where
  label : String
  «to» : Option String := none
  href : Option String := none
deriving DecidableEq

/-- A group of `footer.links`. -/
structure FooterGroup where
  title : String
  items : List FooterItem
deriving DecidableEq

/-- The `footer` object. -/
structure Footer where
  style : String
  links : List FooterGroup
  copyright : String
deriving DecidableEq

/-- The `prism` object. -/
structure Prism where
  theme : PrismTheme
  darkTheme : PrismTheme
  additionalLanguages : List String
deriving DecidableEq

/-- The `themeConfig` object. -/
structure ThemeConfig where
  image : String
  navbar : Navbar
  footer : Footer
  prism : Prism
deriving DecidableEq

/-- The exported configuration object. -/
structure Config where
  title : String
  tagline : String
  favicon : String
  url : String
  baseUrl : String
  organizationName : String
  projectName : String
  onBrokenLinks : String
  onBrokenMarkdownLinks : String
  i18n : I18n
  presets : List Preset
  themeConfig : ThemeConfig
deriving DecidableEq

/-- `const lightCodeTheme = themes.github;` -/
def lightCodeTheme : PrismTheme := .github

/-- `const darkCodeTheme = themes.dracula;` -/
def darkCodeTheme : PrismTheme := .dracula

/-- The `config` constant of `docusaurus.config.js`.  `fullYear` stands for
the value of `new Date().getFullYear()` when the module is loaded; the
template literal of `copyright` inserts its decimal form.  The two characters
between `Copyright ` and the year are U+00C2 U+00A9, as the bytes
`c3 82 c2 a9` of the file decode. -/
def config (fullYear : Int) : Config where
  title := "AI Infrastructure on Azure"
  tagline := "Architectural guidance and training examples for Azure AI Infrastructure"
  favicon := "img/favicon.ico"
  url := "https://azure.github.io"
  baseUrl := "/"
  organizationName := "Azure"
  projectName := "ai-infrastructure-on-azure"
  onBrokenLinks := "warn"
  onBrokenMarkdownLinks := "warn"
  i18n := { defaultLocale := "en", locales := ["en"] }
  presets := [
    { name := "classic"
      options := {
        docs := {
          sidebarPath := ⟨"./sidebars.js"⟩
          editUrl := "https://github.com/Azure/ai-infrastructure-on-azure/tree/main/docusaurus/" }
        theme := { customCss := ⟨"./src/css/custom.css"⟩ } } }]
  themeConfig := {
    image := "img/docusaurus-social-card.jpg"
    navbar := {
      title := "AI Infrastructure on Azure"
      logo := { alt := "Azure Logo", src := "img/logo.svg" }
      items := [
        { «to» := some "/docs/infrastructure/cyclecloud-slurm"
          label := "Infrastructure", position := "left" },
        { «to» := some "/docs/validations/aks/storage-performance"
          label := "Validations", position := "left" },
        { «to» := some "/docs/examples/ai-training/megatron-gpt3-slurm"
          label := "Examples", position := "left" },
        { «to» := some "/docs/guidance/node-labeler"
          label := "Guidance", position := "left" },
        { href := some "https://github.com/Azure/ai-infrastructure-on-azure"
          label := "GitHub", position := "right" }] }
    footer := {
      style := "dark"
      links := [
        { title := "Documentation"
          items := [
            { label := "Infrastructure"
              «to» := some "/docs/infrastructure/cyclecloud-slurm" },
            { label := "AI Training Examples"
              «to» := some "/docs/examples/ai-training/megatron-gpt3-slurm" },
            { label := "Validations"
              «to» := some "/docs/validations/aks/nccl-testing" },
            { label := "Guidance"
              «to» := some "/docs/guidance/node-labeler" }] },
        { title := "Azure Services"
          items := [
            { label := "Azure Kubernetes Service"
              href := some "https://learn.microsoft.com/en-us/azure/aks/what-is-aks" },
            { label := "Azure CycleCloud"
              href := some "https://learn.microsoft.com/en-us/azure/cyclecloud/overview-ccws?view=cyclecloud-8" },
            { label := "Azure Machine Learning"
              href := some "https://learn.microsoft.com/en-us/azure/machine-learning/?view=azureml-api-2" }] },
        { title := "More"
          items := [
            { label := "GitHub"
              href := some "https://github.com/Azure/ai-infrastructure-on-azure" },
            { label := "Microsoft Learn"
              href := some "https://learn.microsoft.com/" }] }]
      copyright :=
        "Copyright \u00C2\u00A9 " ++ toString fullYear ++
          " Microsoft Corporation. Built with Docusaurus." }
    prism := {
      theme := lightCodeTheme
      darkTheme := darkCodeTheme
      additionalLanguages := ["powershell", "bash", "yaml", "json"] } }

/-- The target of a navbar entry: its `to` when present, else its `href`. -/
def NavbarItem.target (item : NavbarItem) : Option String :=
  match item.to with
  | some path => some path
  | none => item.href

/-- The target of a footer entry: its `to` when present, else its `href`. -/
def FooterItem.target (item : FooterItem) : Option String :=
  match item.to with
  | some path => some path
  | none => item.href

/-- Whether `s` begins with `start`. -/
def startsWith (s start : String) : Bool :=
  start.data.isPrefixOf s.data

/-- The characters of `s` after `start`, when `s` begins with `start`. -/
def afterStart? (start s : String) : Option String :=
  if startsWith s start then some ⟨s.data.drop start.data.length⟩ else none

/-- The host of an absolute `http` or `https` URL: what stands between the
scheme and the first `/`, `?` or `#`. -/
def urlHost? (s : String) : Option String :=
  let upToPath (rest : String) : String :=
    ⟨rest.data.takeWhile fun c => c != '/' && c != '?' && c != '#'⟩
  match afterStart? "https://" s with
  | some rest => some (upToPath rest)
  | none =>
    match afterStart? "http://" s with
    | some rest => some (upToPath rest)
    | none => none

/-- A configuration with its `footer.copyright` replaced by `text`. -/
def Config.withCopyright (c : Config) (text : String) : Config :=
  { c with themeConfig :=
      { c.themeConfig with footer := { c.themeConfig.footer with copyright := text } } }

/-! ## `src/components/HomepageFeatures/index.js` -/

/-- A rendered React tree.  `host` is a DOM element with its props and
children, `asset` an element of a component imported from a static asset
(the `Svg` of a feature), `fragment` is `<>...</>`, and `component key output`
is an element of a function component of this file together with what the
component returns for its props. -/
inductive Element where
  | text (value : String)
  | fragment (children : List Element)
  | host (tag : String) (props : List (String × String)) (children : List Element)
  | asset (module : String) (props : List (String × String))
  | component (key : Nat) (output : Element)

/-- The class names the file reads from `./styles.module.css`. -/
structure Styles where
  features : String
  featureSvg : String
deriving DecidableEq

/-- An element of `FeatureList`, which is also the props of `Feature`.  `Svg`
is kept by the module it is required from; `description` is the JSX of the
record. -/
structure FeatureProps where
  title : String
  Svg : String
  description : Element

/-- The `FeatureList` constant.  The text of each description is the JSX text
of the source: its lines trimmed and joined by one space.  Each title begins
with an emoji and a space: U+1F3D7 U+FE0F, U+1F916 and U+2705. -/
def FeatureList : List FeatureProps := [
  { title := "🏗\uFE0F Infrastructure References"
    Svg := "@site/static/img/undraw_docusaurus_mountain.svg"
    description := .fragment [.text
      "Deploy and configure Azure infrastructure for AI workloads using Azure CycleCloud with Slurm or Azure Kubernetes Service. Complete guides for GPU-optimized clusters."] },
  { title := "🤖 AI Training Examples"
    Svg := "@site/static/img/undraw_docusaurus_tree.svg"
    description := .fragment [.text
      "End-to-end training workflows for large language models including MegatronLM GPT3-175B and LLM Foundry MPT models. Support for both Slurm and Kubernetes orchestration."] },
  { title := "✅ Infrastructure Validations"
    Svg := "@site/static/img/undraw_docusaurus_react.svg"
    description := .fragment [.text
      "Test and validate your AI infrastructure with NCCL performance testing, node health checks, thermal testing, and storage performance benchmarks."] }]

/-- The function `clsx` on string arguments: the non-empty ones, joined by a
space. -/
def clsx (args : List String) : String :=
  " ".intercalate (args.filter fun a => a != "")

/-- The component `Feature`. -/
def Feature (styles : Styles) (props : FeatureProps) : Element :=
  .host "div" [("className", clsx ["col col--4"])] [
    .host "div" [("className", "text--center")] [
      .asset props.Svg [("className", styles.featureSvg), ("role", "img")]],
    .host "div" [("className", "text--center padding-horiz--md")] [
      .host "h3" [] [.text props.title],
      .host "p" [] [props.description]]]

/-- The component `HomepageFeatures`; the children of the row are
`FeatureList.map((props, idx) => <Feature key={idx} {...props} />)`. -/
def HomepageFeatures (styles : Styles) : Element :=
  .host "section" [("className", styles.features)] [
    .host "div" [("className", "container")] [
      .host "div" [("className", "row")]
        (FeatureList.mapIdx fun idx props => .component idx (Feature styles props))]]

/-- The children of an element. -/
def Element.children : Element → List Element
  | .text _ => []
  | .fragment cs => cs
  | .host _ _ cs => cs
  | .asset _ _ => []
  | .component _ output => [output]

/-- The `className` of a DOM element. -/
def Element.className : Element → Option String
  | .host _ props _ => props.lookup "className"
  | _ => none

/-- The key of a component element. -/
def Element.key? : Element → Option Nat
  | .component key _ => some key
  | _ => none

/-- What a component element renders to. -/
def Element.output? : Element → Option Element
  | .component _ output => some output
  | _ => none

mutual
/-- The text inside an element, in document order. -/
def Element.textContent : Element → String
  | .text value => value
  | .fragment cs => textContentOf cs
  | .host _ _ cs => textContentOf cs
  | .asset _ _ => ""
  | .component _ output => output.textContent
/-- The text inside a sequence of elements, in document order. -/
def textContentOf : List Element → String
  | [] => ""
  | e :: rest => e.textContent ++ textContentOf rest
end

mutual
/-- The DOM elements with tag `tag` at or below an element, in document
order. -/
def Element.withTag (tag : String) : Element → List Element
  | .text _ => []
  | .fragment cs => withTagIn tag cs
  | .host t props cs =>
      (if t = tag then [.host t props cs] else []) ++ withTagIn tag cs
  | .asset _ _ => []
  | .component _ output => output.withTag tag
/-- The DOM elements with tag `tag` in a sequence of elements. -/
def withTagIn (tag : String) : List Element → List Element
  | [] => []
  | e :: rest => e.withTag tag ++ withTagIn tag rest
end

mutual
/-- The modules of the asset components at or below an element, in document
order. -/
def Element.assets : Element → List String
  | .text _ => []
  | .fragment cs => assetsIn cs
  | .host _ _ cs => assetsIn cs
  | .asset module _ => [module]
  | .component _ output => output.assets
/-- The modules of the asset components in a sequence of elements. -/
def assetsIn : List Element → List String
  | [] => []
  | e :: rest => e.assets ++ assetsIn rest
end

/-- The cards of the rendered homepage section: the children of the row
inside the container inside the section. -/
def cards (styles : Styles) : List Element :=
  match (HomepageFeatures styles).children with
  | [container] =>
    match container.children with
    | [row] => row.children
    | _ => []
  | _ => []

/-- The texts of the `h3` elements of a card. -/
def cardTitles (card : Element) : List String :=
  (card.withTag "h3").map Element.textContent

/-- The contents of the `p` elements of a card. -/
def cardDescriptions (card : Element) : List (List Element) :=
  (card.withTag "p").map Element.children

/-- Class names to try the components on. -/
def sampleStyles : Styles := { features := "features_t9lD", featureSvg := "featureSvg_GfXr" }

/-! ## Evaluation lemmas -/

/-- The flattened sidebar, written out: 17 document ids in depth-first
order. -/
theorem flattenSidebar_tutorialSidebar :
    flattenSidebar sidebars.tutorialSidebar =
      ["intro",
       "infrastructure/cyclecloud-slurm",
       "infrastructure/aks-cluster",
       "validations/aks/storage-performance",
       "validations/aks/nccl-testing",
       "validations/aks/node-health-checks",
       "validations/slurm/nccl-testing",
       "validations/slurm/node-health-checks",
       "validations/slurm/thermal-testing",
       "examples/ai-training/megatron-gpt3-slurm",
       "examples/ai-training/megatron-gpt3-aks",
       "examples/ai-training/llm-foundry-slurm",
       "examples/ai-training/llm-foundry-aks",
       "examples/shared-storage/shared-storage-aks",
       "guidance/node-labeler",
       "guidance/torset-labeler",
       "guidance/squashed-images"] := by
  rfl

/-- The row of the homepage section holds one component element per feature
record. -/
theorem cards_eq (styles : Styles) :
    cards styles =
      FeatureList.mapIdx fun idx props => .component idx (Feature styles props) := by
  rfl

/-! ## The homepage feature component -/

/-- C1, as amended: rendering `HomepageFeatures` yields exactly 3 cards, each
card has one `h3`, and the h3 texts are the titles of `FeatureList` in map
order, which are the three declared titles with their leading emoji:
U+1F3D7 U+FE0F, U+1F916 and U+2705, each followed by a space. -/
theorem homepageFeatures_card_titles (styles : Styles) :
    (cards styles).length = 3 ∧
    (cards styles).map cardTitles = FeatureList.map (fun props => [props.title]) ∧
    (cards styles).map cardTitles =
      [["🏗\uFE0F Infrastructure References"],
       ["🤖 AI Training Examples"],
       ["✅ Infrastructure Validations"]] := by
  exact ⟨rfl, rfl, rfl⟩

/-- C1, as stated, fails: the card titles are not the bare words
"Infrastructure References", "AI Training Examples",
"Infrastructure Validations", because every declared title starts with an
emoji. -/
theorem homepageFeatures_card_titles_not_bare :
    ¬ ((cards sampleStyles).length = 3 ∧
       (cards sampleStyles).map cardTitles =
         [["Infrastructure References"],
          ["AI Training Examples"],
          ["Infrastructure Validations"]]) := by
  decide

/-- C9: the cards are `FeatureList` mapped through `Feature` in order: as many
cards as records (3); whenever `FeatureList[i]` is `props`, the `i`-th card is
the component element with key `i` whose output is `Feature` of `props`, the
outer element of that output has class `col col--4`, and the card shows the
Svg, the title and the description of `props`. -/
theorem homepageFeatures_cards_map_feature (styles : Styles) :
    (cards styles).length = FeatureList.length ∧ FeatureList.length = 3 ∧
    ∀ (i : Nat) (props : FeatureProps), FeatureList[i]? = some props →
      ∃ card, (cards styles)[i]? = some card ∧
        card.key? = some i ∧
        card.output? = some (Feature styles props) ∧
        (Feature styles props).className = some "col col--4" ∧
        card.assets = [props.Svg] ∧
        cardTitles card = [props.title] ∧
        cardDescriptions card = [[props.description]] := by
  refine ⟨rfl, rfl, ?_⟩
  intro i props h
  match i, h with
  | 0, h =>
    simp only [FeatureList, List.getElem?_cons_zero, Option.some.injEq] at h
    subst h
    exact ⟨_, rfl, rfl, rfl, rfl, rfl, rfl, rfl⟩
  | 1, h =>
    simp only [FeatureList, List.getElem?_cons_succ, List.getElem?_cons_zero,
      Option.some.injEq] at h
    subst h
    exact ⟨_, rfl, rfl, rfl, rfl, rfl, rfl, rfl⟩
  | 2, h =>
    simp only [FeatureList, List.getElem?_cons_succ, List.getElem?_cons_zero,
      Option.some.injEq] at h
    subst h
    exact ⟨_, rfl, rfl, rfl, rfl, rfl, rfl, rfl⟩
  | n + 3, h =>
    simp [FeatureList] at h

/-- C9 at index 1: the second record is the one titled "AI Training
Examples" (after its emoji), and the second card has key 1 and renders it. -/
theorem homepageFeatures_cards_map_feature_witness :
    FeatureList[1]? = some
        { title := "🤖 AI Training Examples"
          Svg := "@site/static/img/undraw_docusaurus_tree.svg"
          description := .fragment [.text
            "End-to-end training workflows for large language models including MegatronLM GPT3-175B and LLM Foundry MPT models. Support for both Slurm and Kubernetes orchestration."] } ∧
    ∃ card, (cards sampleStyles)[1]? = some card ∧
      card.key? = some 1 ∧
      card.assets = ["@site/static/img/undraw_docusaurus_tree.svg"] ∧
      cardTitles card = ["🤖 AI Training Examples"] := by
  refine ⟨rfl, ?_⟩
  obtain ⟨card, hcard, hkey, _, _, hsvg, htitle, _⟩ :=
    (homepageFeatures_cards_map_feature sampleStyles).2.2 1 _ rfl
  exact ⟨card, hcard, hkey, hsvg, htitle⟩

/-! ## The sidebar -/

/-- C3: the flattened `tutorialSidebar` has no duplicates. -/
theorem tutorialSidebar_docIds_nodup :
    (flattenSidebar sidebars.tutorialSidebar).Nodup := by
  decide

/-- C4: the document id `infrastructure/cyclecloud-slurm` occurs once in
`tutorialSidebar`, directly under the category `Infrastructure` at index 0;
there is one category with that label, and its item 0 is that document. -/
theorem cyclecloud_slurm_location :
    locate "infrastructure/cyclecloud-slurm" sidebars.tutorialSidebar =
      [{ path := ["Infrastructure"], index := 0 }] ∧
    (categoriesLabelledIn "Infrastructure" sidebars.tutorialSidebar).map
        (fun items => items[0]?.bind SidebarItem.docId?) =
      [some "infrastructure/cyclecloud-slurm"] ∧
    (flattenSidebar sidebars.tutorialSidebar).count "infrastructure/cyclecloud-slurm" = 1 := by
  refine ⟨by decide, by rfl, by decide⟩

/-! ## The configuration -/

/-- C2: every `to` of a navbar item or of a footer item is `/docs/` followed
by a document id of the flattened `tutorialSidebar`. -/
theorem navigation_targets_resolve (fullYear : Int) (path : String)
    (h : (∃ item ∈ (config fullYear).themeConfig.navbar.items, item.to = some path) ∨
         (∃ group ∈ (config fullYear).themeConfig.footer.links,
            ∃ item ∈ group.items, item.to = some path)) :
    startsWith path "/docs/" = true ∧
    ∃ id ∈ flattenSidebar sidebars.tutorialSidebar,
      afterStart? "/docs/" path = some id ∧ path = "/docs/" ++ id := by
  rcases h with ⟨item, hitem, hto⟩ | ⟨group, hgroup, item, hitem, hto⟩
  · simp only [config, List.mem_cons, List.mem_singleton, List.not_mem_nil, or_false] at hitem
    rcases hitem with rfl | rfl | rfl | rfl | rfl <;>
      simp only [Option.some.injEq, reduceCtorEq] at hto <;> subst hto <;> decide
  · simp only [config, List.mem_cons, List.mem_singleton, List.not_mem_nil, or_false] at hgroup
    rcases hgroup with rfl | rfl | rfl <;>
      simp only [List.mem_cons, List.mem_singleton, List.not_mem_nil, or_false] at hitem
    · rcases hitem with rfl | rfl | rfl | rfl <;>
        simp only [Option.some.injEq] at hto <;> subst hto <;> decide
    · rcases hitem with rfl | rfl | rfl <;> simp only [reduceCtorEq] at hto
    · rcases hitem with rfl | rfl <;> simp only [reduceCtorEq] at hto

/-- C2 at the footer entry `Validations`, whose `to` is
`/docs/validations/aks/nccl-testing`. -/
theorem navigation_targets_resolve_witness :
    ((∃ item ∈ (config 2025).themeConfig.navbar.items,
        item.to = some "/docs/validations/aks/nccl-testing") ∨
     (∃ group ∈ (config 2025).themeConfig.footer.links,
        ∃ item ∈ group.items, item.to = some "/docs/validations/aks/nccl-testing")) ∧
    (startsWith "/docs/validations/aks/nccl-testing" "/docs/" = true ∧
     ∃ id ∈ flattenSidebar sidebars.tutorialSidebar,
       afterStart? "/docs/" "/docs/validations/aks/nccl-testing" = some id ∧
       "/docs/validations/aks/nccl-testing" = "/docs/" ++ id) :=
  have h : (∃ item ∈ (config 2025).themeConfig.navbar.items,
        item.to = some "/docs/validations/aks/nccl-testing") ∨
     (∃ group ∈ (config 2025).themeConfig.footer.links,
        ∃ item ∈ group.items, item.to = some "/docs/validations/aks/nccl-testing") := by
    decide
  ⟨h, navigation_targets_resolve 2025 "/docs/validations/aks/nccl-testing" h⟩

/-- C5: every entry of `navbar.items` has a target (`to`, else `href`), the
target is not empty, and it begins with `/docs/` or is an `https://` or
`http://` URL with a non-empty host. -/
theorem navbar_targets_well_formed (fullYear : Int) (item : NavbarItem)
    (h : item ∈ (config fullYear).themeConfig.navbar.items) :
    ∃ target, item.target = some target ∧ target ≠ "" ∧
      (startsWith target "/docs/" = true ∨
       ((startsWith target "https://" = true ∨ startsWith target "http://" = true) ∧
        ∃ host, urlHost? target = some host ∧ host ≠ "")) := by
  simp only [config, List.mem_cons, List.mem_singleton, List.not_mem_nil, or_false] at h
  rcases h with rfl | rfl | rfl | rfl | rfl
  · exact ⟨_, rfl, by decide, Or.inl (by decide)⟩
  · exact ⟨_, rfl, by decide, Or.inl (by decide)⟩
  · exact ⟨_, rfl, by decide, Or.inl (by decide)⟩
  · exact ⟨_, rfl, by decide, Or.inl (by decide)⟩
  · exact ⟨_, rfl, by decide, Or.inr ⟨by decide, "github.com", by decide, by decide⟩⟩

/-- C5 at the last navbar entry, the external link `GitHub`. -/
theorem navbar_targets_well_formed_witness :
    ({ href := some "https://github.com/Azure/ai-infrastructure-on-azure"
       label := "GitHub", position := "right" } : NavbarItem) ∈
        (config 2025).themeConfig.navbar.items ∧
    ∃ target,
      ({ href := some "https://github.com/Azure/ai-infrastructure-on-azure"
         label := "GitHub", position := "right" } : NavbarItem).target = some target ∧
      target ≠ "" ∧
      (startsWith target "/docs/" = true ∨
       ((startsWith target "https://" = true ∨ startsWith target "http://" = true) ∧
        ∃ host, urlHost? target = some host ∧ host ≠ "")) :=
  ⟨by decide, navbar_targets_well_formed 2025 _ (by decide)⟩

/-- C6: `footer.links` is not empty, every group of it has items, and every
item has a non-empty label and a non-empty target (`to`, else `href`). -/
theorem footer_links_nonempty (fullYear : Int) :
    (config fullYear).themeConfig.footer.links ≠ [] ∧
    ∀ group ∈ (config fullYear).themeConfig.footer.links,
      group.items ≠ [] ∧
      ∀ item ∈ group.items,
        item.label ≠ "" ∧ ∃ target, item.target = some target ∧ target ≠ "" := by
  refine ⟨by simp [config], ?_⟩
  intro group hgroup
  simp only [config, List.mem_cons, List.mem_singleton, List.not_mem_nil, or_false] at hgroup
  rcases hgroup with rfl | rfl | rfl
  · refine ⟨by simp, ?_⟩
    intro item hitem
    simp only [List.mem_cons, List.mem_singleton, List.not_mem_nil, or_false] at hitem
    rcases hitem with rfl | rfl | rfl | rfl <;>
      exact ⟨by decide, _, rfl, by decide⟩
  · refine ⟨by simp, ?_⟩
    intro item hitem
    simp only [List.mem_cons, List.mem_singleton, List.not_mem_nil, or_false] at hitem
    rcases hitem with rfl | rfl | rfl <;>
      exact ⟨by decide, _, rfl, by decide⟩
  · refine ⟨by simp, ?_⟩
    intro item hitem
    simp only [List.mem_cons, List.mem_singleton, List.not_mem_nil, or_false] at hitem
    rcases hitem with rfl | rfl <;>
      exact ⟨by decide, _, rfl, by decide⟩

/-- C6 at the group `More` and its entry `Microsoft Learn`. -/
theorem footer_links_nonempty_witness :
    ({ title := "More"
       items := [
         { label := "GitHub"
           href := some "https://github.com/Azure/ai-infrastructure-on-azure" },
         { label := "Microsoft Learn"
           href := some "https://learn.microsoft.com/" }] } : FooterGroup) ∈
        (config 2025).themeConfig.footer.links ∧
    ({ label := "Microsoft Learn"
       href := some "https://learn.microsoft.com/" } : FooterItem).label ≠ "" ∧
    ∃ target,
      ({ label := "Microsoft Learn"
         href := some "https://learn.microsoft.com/" } : FooterItem).target = some target ∧
      target ≠ "" :=
  have hgroup :
      ({ title := "More"
         items := [
           { label := "GitHub"
             href := some "https://github.com/Azure/ai-infrastructure-on-azure" },
           { label := "Microsoft Learn"
             href := some "https://learn.microsoft.com/" }] } : FooterGroup) ∈
        (config 2025).themeConfig.footer.links := by
    decide
  ⟨hgroup, ((footer_links_nonempty 2025).2 _ hgroup).2
    ({ label := "Microsoft Learn"
       href := some "https://learn.microsoft.com/" } : FooterItem) (by decide)⟩

/-- C7: for every year the copyright is the fixed text before the year, the
decimal form of the year, and the fixed text after it; and two configurations
built for two years agree on every field but `footer.copyright`: on each
field outside `themeConfig`, on `image`, `navbar` and `prism`, on the `style`
and `links` of the footer, and so as wholes once the copyright is set to a
common text. -/
theorem copyright_only_depends_on_year (y1 y2 : Int) :
    (config y1).themeConfig.footer.copyright =
      "Copyright Â© " ++ toString y1 ++
        " Microsoft Corporation. Built with Docusaurus." ∧
    (config y1).title = (config y2).title ∧
    (config y1).tagline = (config y2).tagline ∧
    (config y1).favicon = (config y2).favicon ∧
    (config y1).url = (config y2).url ∧
    (config y1).baseUrl = (config y2).baseUrl ∧
    (config y1).organizationName = (config y2).organizationName ∧
    (config y1).projectName = (config y2).projectName ∧
    (config y1).onBrokenLinks = (config y2).onBrokenLinks ∧
    (config y1).onBrokenMarkdownLinks = (config y2).onBrokenMarkdownLinks ∧
    (config y1).i18n = (config y2).i18n ∧
    (config y1).presets = (config y2).presets ∧
    (config y1).themeConfig.image = (config y2).themeConfig.image ∧
    (config y1).themeConfig.navbar = (config y2).themeConfig.navbar ∧
    (config y1).themeConfig.prism = (config y2).themeConfig.prism ∧
    (config y1).themeConfig.footer.style = (config y2).themeConfig.footer.style ∧
    (config y1).themeConfig.footer.links = (config y2).themeConfig.footer.links ∧
    (∀ text, (config y1).withCopyright text = (config y2).withCopyright text) ∧
    config y1 = (config y2).withCopyright (config y1).themeConfig.footer.copyright := by
  refine ⟨rfl, rfl, rfl, rfl, rfl, rfl, rfl, rfl, rfl, rfl, rfl, rfl, rfl, rfl, rfl, rfl, rfl,
    fun _ => rfl, rfl⟩

/-- C8: `i18n.defaultLocale` is one of `i18n.locales`. -/
theorem defaultLocale_mem_locales (fullYear : Int) :
    (config fullYear).i18n.defaultLocale ∈ (config fullYear).i18n.locales := by
  simp [config]

/-- C10: the navbar items that have a `to`, in order, carry the labels of the
top-level categories of `tutorialSidebar`, in order, and the `to` of each is
`/docs/` followed by the first leaf document id of the category at the same
place, which is the only top-level category with that label. -/
theorem navbar_mirrors_sidebar (fullYear : Int) :
    (((config fullYear).themeConfig.navbar.items.filter
        fun item => item.to.isSome).map fun item => item.label) =
      (topLevelCategories sidebars.tutorialSidebar).map (fun c => c.1) ∧
    ((config fullYear).themeConfig.navbar.items.filterMap
        fun item => item.to.map fun path => (item.label, some path)) =
      (topLevelCategories sidebars.tutorialSidebar).map
        (fun c => (c.1, (firstDocId c.2).map fun id => "/docs/" ++ id)) ∧
    ((topLevelCategories sidebars.tutorialSidebar).map fun c => c.1).Nodup := by
  refine ⟨by rfl, by rfl, by decide⟩

end AzureAIInfra
